import Mathlib

/-!
Shallow embedding of the `chat-with-video` repository: the audio-extraction
feature (`main/features/audio_extraction`) and the transcription feature
(`main/features/transcription`).  Python exceptions are modelled by an
explicit error type threaded through `Except`; the file system, the
`ffmpeg` subprocess and the speech model are modelled as abstract
environments, so every theorem quantifies over their behaviour.  Side
effects that the claims observe (directory creation, port invocations) are
returned as explicit traces.
-/

/-- Python exception values of the two feature hierarchies
(`exceptions/errors.py` of each feature), plus a constructor for any
exception outside them (Python's bare `Exception` case). -/
inductive PyExc where
  | audioExtractionError (msg : String)
  | videoFileNotFound (msg : String)
  | ffmpegExecutionError (msg : String)
  | ffmpegBinaryNotFound (msg : String)
  | transcriptionError (msg : String)
  | audioFileNotFound (msg : String)
  | whisperModelError (msg : String)
  | otherException (msg : String)
deriving DecidableEq, Repr

/-- Membership in Python's `FFmpegBinaryNotFoundError` class. -/
def PyExc.isFFmpegBinaryNotFound : PyExc → Bool
  | .ffmpegBinaryNotFound _ => true
  | _ => false

/-- Membership in Python's `AudioExtractionError` hierarchy
(`errors.py`: `VideoFileNotFoundError`, `FFmpegExecutionError` and
`FFmpegBinaryNotFoundError` all subclass `AudioExtractionError`). -/
def PyExc.isAudioExtractionError : PyExc → Bool
  | .audioExtractionError _ => true
  | .videoFileNotFound _ => true
  | .ffmpegExecutionError _ => true
  | .ffmpegBinaryNotFound _ => true
  | _ => false

/-- Membership in Python's `WhisperModelError` class. -/
def PyExc.isWhisperModelError : PyExc → Bool
  | .whisperModelError _ => true
  | _ => false

/-- Membership in Python's `TranscriptionError` hierarchy
(`errors.py`: `AudioFileNotFoundError` and `WhisperModelError` subclass
`TranscriptionError`). -/
def PyExc.isTranscriptionError : PyExc → Bool
  | .transcriptionError _ => true
  | .audioFileNotFound _ => true
  | .whisperModelError _ => true
  | _ => false

/-- Substring test used to state that an error message "carries" some
captured text. -/
def strContains (hay needle : String) : Bool :=
  decide (needle.toList <:+: hay.toList)

/-! ### Path helpers (Python `pathlib` operations used by the sources)

Paths are modelled as plain strings with `/` separators.  Only the
operations the repository uses are embedded: `Path.name`, `Path.suffix`,
`Path.with_suffix` and `Path.parent`.  The argument-validation errors of
`with_suffix` (invalid suffix argument, empty name) are omitted: the
repository's only call site passes the fixed, valid suffix `".mp3"`. -/

/-- Final path component: the text after the last `/` (Python `Path.name`). -/
def pyName (p : String) : String :=
  String.mk ((p.toList.reverse.takeWhile (fun c => c ≠ '/')).reverse)

/-- Leading portion of the path up to and including the last `/`. -/
def pyDirPrefix (p : String) : String :=
  String.mk (p.toList.take (p.length - (pyName p).length))

/-- Extension of a file name (Python `Path.suffix` on the name): the part
from the last dot, when that dot is strictly inside the name. -/
def pyNameSuffix (name : String) : String :=
  let cs := name.toList
  let revTail := cs.reverse.takeWhile (fun c => c ≠ '.')
  if revTail.length = cs.length then ""
  else
    let i := cs.length - revTail.length - 1
    if 0 < i && i < cs.length - 1 then String.mk (cs.drop i) else ""

/-- Python `Path.with_suffix`: replace the name's extension (or append the
suffix when the name has none). -/
def pyWithSuffix (p : String) (suffix : String) : String :=
  let name := pyName p
  let old := pyNameSuffix name
  let newName :=
    if old = "" then name ++ suffix
    else String.mk (name.toList.take (name.length - old.length)) ++ suffix
  pyDirPrefix p ++ newName

/-- Python `Path.parent`: drop the final component. -/
def pyParent (p : String) : String :=
  let d := pyDirPrefix p
  if d = "" then "."
  else if d = "/" then "/"
  else String.mk (d.toList.take (d.length - 1))

/-- Observable file-system predicates queried by the use cases
(`Path.exists` and `Path.is_file`). -/
structure FileSystem where
  existsAt : String → Bool
  isFile : String → Bool

/-! ### Configuration (`config/settings.py` of each feature) -/

/-- Default audio format to extract (`audio_extraction/config/settings.py`). -/
def DEFAULT_OUTPUT_FORMAT : String := "mp3"

/-- FFmpeg audio-quality flags (`audio_extraction/config/settings.py`). -/
def FFMPEG_AUDIO_QUALITY_FLAGS : List String := ["-q:a", "0"]

/-- Default Whisper model name (`transcription/config/settings.py`). -/
def DEFAULT_WHISPER_MODEL : String := "medium"

/-- Timeout, in seconds, passed to `subprocess.run` in
`ffmpeg_extractor.py` (line 82). -/
def FFMPEG_TIMEOUT : Nat := 600

/-! ### Audio-extraction feature -/

/-- Domain model `AudioExtractionJob` (`audio_extraction/domain/models.py`). -/
structure AudioExtractionJob where
  video_file_path : String
  output_audio_path : String
  audio_quality_flags : List String
deriving DecidableEq, Repr

/-- Outcome of one `subprocess.run` invocation, as observed by the adapter:
the process completed with an exit code and captured output, the 600 s
timeout expired (with whatever output had been captured), or the binary was
missing at call time (Python `FileNotFoundError`). -/
inductive ProcOutcome where
  | completed (returncode : Int) (stdout stderr : String)
  | timedOut (stdout stderr : String)
  | binaryMissing
deriving DecidableEq, Repr

/-- Environment of the extraction feature: `shutil.which("ffmpeg")`, the
subprocess runner, `Path.resolve`, and the file system. -/
structure ExtractEnv where
  which_ffmpeg : Option String
  run : List String → ProcOutcome
  resolve : String → String
  fs : FileSystem

/-- Adapter state after successful construction
(`FFmpegAudioExtractor.__init__` stores the resolved binary path). -/
structure FFmpegAudioExtractor where
  ffmpeg_binary : String
deriving DecidableEq, Repr

/-- Constructor `FFmpegAudioExtractor.__init__` (`ffmpeg_extractor.py`
lines 27-39): `self.ffmpeg_binary = ffmpeg_path or self._find_ffmpeg()`,
then `if not self.ffmpeg_binary: raise FFmpegBinaryNotFoundError(...)`.
Python truthiness makes both `None` and `""` falsy.  The constructor
touches no file-system state, which the type records by neither taking nor
returning any. -/
def FFmpegAudioExtractor.init (ffmpeg_path : Option String)
    (which_ffmpeg : Option String) : Except PyExc FFmpegAudioExtractor :=
  let binary : Option String :=
    match ffmpeg_path with
    | some p => if p = "" then which_ffmpeg else some p
    | none => which_ffmpeg
  match binary with
  | some b =>
      if b = "" then
        .error (.ffmpegBinaryNotFound
          "ffmpeg binary not found in system's PATH. Please install ffmpeg.")
      else .ok ⟨b⟩
  | none =>
      .error (.ffmpegBinaryNotFound
        "ffmpeg binary not found in system's PATH. Please install ffmpeg.")

/-- Command list built in `FFmpegAudioExtractor.extract`
(`ffmpeg_extractor.py` lines 62-69). -/
def ffmpegCommand (self : FFmpegAudioExtractor) (resolve : String → String)
    (job : AudioExtractionJob) : List String :=
  [self.ffmpeg_binary, "-i", resolve job.video_file_path, "-vn"]
    ++ job.audio_quality_flags
    ++ [resolve job.output_audio_path, "-y"]

/-- Method `FFmpegAudioExtractor.extract` (`ffmpeg_extractor.py` lines
45-108).  First creates the destination directory
(`job.output_audio_path.parent.mkdir(parents=True, exist_ok=True)`),
recorded in the returned trace of created directories; then runs the
command; `check=True` turns a non-zero exit code into
`subprocess.CalledProcessError`, caught and re-raised as
`FFmpegExecutionError` with the captured output in the message; a
`FileNotFoundError` becomes `FFmpegBinaryNotFoundError`; a
`subprocess.TimeoutExpired` becomes `FFmpegExecutionError` with a
timeout message. -/
def FFmpegAudioExtractor.extract (self : FFmpegAudioExtractor)
    (env : ExtractEnv) (job : AudioExtractionJob) :
    Except PyExc Unit × List String :=
  let mkdirs := [pyParent job.output_audio_path]
  let command := ffmpegCommand self env.resolve job
  match env.run command with
  | .completed rc stdout stderr =>
      if rc == 0 then (.ok (), mkdirs)
      else
        (.error (.ffmpegExecutionError
          ("FFmpeg failed with exit code " ++ toString rc ++ ".\nSTDERR: "
            ++ stderr ++ "\nSTDOUT: " ++ stdout)), mkdirs)
  | .timedOut _ _ =>
      (.error (.ffmpegExecutionError
        ("FFmpeg command timed out after " ++ toString FFMPEG_TIMEOUT
          ++ " seconds.")), mkdirs)
  | .binaryMissing =>
      (.error (.ffmpegBinaryNotFound
        ("FFmpeg binary not found at " ++ self.ffmpeg_binary ++ ".")), mkdirs)

/-- Use case `ExtractAudioUseCase.execute` (`use_case.py` lines 21-59),
parametrised over the injected extraction port.  The port returns its
result together with the directories it created; `execute` additionally
returns the trace of port invocations, so that "the adapter observes zero
invocations" is a statement about the returned trace. -/
def ExtractAudioUseCase.execute
    (extractor : AudioExtractionJob → Except PyExc Unit × List String)
    (fs : FileSystem) (video_path output_path : String)
    (quality_flags : List String) :
    Except PyExc String × List String × List AudioExtractionJob :=
  if fs.existsAt video_path = false then
    (.error (.videoFileNotFound ("Video file not found at: " ++ video_path)),
      [], [])
  else if fs.isFile video_path = false then
    (.error (.videoFileNotFound ("Path is not a file: " ++ video_path)),
      [], [])
  else
    let job : AudioExtractionJob := ⟨video_path, output_path, quality_flags⟩
    match extractor job with
    | (.ok _, dirs) => (.ok output_path, dirs, [job])
    | (.error e, dirs) => (.error e, dirs, [job])

/-- The `try` body of `extract_audio_from_video` (`service/api.py` lines
65-97): construct the adapter (no explicit `ffmpeg_path`, so the binary
comes from the PATH search), select the output path (the source tests the
argument's truthiness: `if output_audio_path:`; `None` and `""` are both
falsy and select the default `with_suffix` path), and run the use case
with the configured quality flags. -/
def extract_body (env : ExtractEnv) (video_file_path : String)
    (output_audio_path : Option String) :
    Except PyExc String × List String × List AudioExtractionJob :=
  match FFmpegAudioExtractor.init none env.which_ffmpeg with
  | .error e => (.error e, [], [])
  | .ok extractor =>
      let video_path_obj := video_file_path
      let output_path_obj :=
        match output_audio_path with
        | some s =>
            if s = "" then pyWithSuffix video_path_obj ("." ++ DEFAULT_OUTPUT_FORMAT)
            else s
        | none => pyWithSuffix video_path_obj ("." ++ DEFAULT_OUTPUT_FORMAT)
      ExtractAudioUseCase.execute (fun j => extractor.extract env j) env.fs
        video_path_obj output_path_obj FFMPEG_AUDIO_QUALITY_FLAGS

/-- Service function `extract_audio_from_video` (`service/api.py` lines
40-113).  The `except` clauses, in source order: `FFmpegBinaryNotFoundError`
is re-raised, any other `AudioExtractionError` returns `None`, and any
other `Exception` returns `None`. -/
def extract_audio_from_video (env : ExtractEnv) (video_file_path : String)
    (output_audio_path : Option String) :
    Except PyExc (Option String) × List String × List AudioExtractionJob :=
  match extract_body env video_file_path output_audio_path with
  | (.ok p, dirs, calls) => (.ok (some p), dirs, calls)
  | (.error e, dirs, calls) =>
      if e.isFFmpegBinaryNotFound then (.error e, dirs, calls)
      else if e.isAudioExtractionError then (.ok none, dirs, calls)
      else (.ok none, dirs, calls)

/-! ### Transcription feature -/

/-- Domain model `TranscriptionJob` (`transcription/domain/models.py`),
with its field defaults (`language=None`, `use_fp16=True`). -/
structure TranscriptionJob where
  audio_file_path : String
  language : Option String := none
  use_fp16 : Bool := true
deriving DecidableEq, Repr

/-- Domain model `TranscriptionResult` (`transcription/domain/models.py`).
Segment records are opaque to this code, so they are modelled as opaque
strings. -/
structure TranscriptionResult where
  text : String
  language : String
  segments : List String := []
deriving DecidableEq, Repr

/-- The record returned by the external model's transcription routine: a
free-form dictionary whose `text`, `language` and `segments` keys may each
be absent (`result_dict.get` with a default at `whisper_transcriber.py`
lines 103-107). -/
structure WhisperRaw where
  text : Option String := none
  language : Option String := none
  segments : Option (List String) := none
deriving DecidableEq, Repr

/-- State of a loaded Whisper model that this code observes: its compute
device type (`self.model.device.type`). -/
structure WhisperModel where
  device_type : String
deriving DecidableEq, Repr

/-- Environment of the transcription feature: the loading behaviour of
`whisper.load_model` (an error message per model name when loading
raises), the behaviour of the model's transcription routine as a function
of the resolved path and the fp16 flag, `Path.resolve`, and the file
system. -/
structure WhisperEnv where
  load_error : String → Option String
  transcribe_run : String → Bool → Except String WhisperRaw
  resolve : String → String
  fs : FileSystem

/-- External call `whisper.load_model(name, device)`.  Per the library's
contract (relied on by the source's comment at `whisper_transcriber.py`
lines 50-63: loading with `device="cpu"` makes the device check evaluate
to CPU), a successfully loaded model lives on the requested device. -/
def whisper_load_model (env : WhisperEnv) (name device : String) :
    Except String WhisperModel :=
  match env.load_error name with
  | some msg => .error msg
  | none => .ok { device_type := device }

/-- Adapter state after successful construction
(`WhisperTranscriber.__init__` stores the model name and the loaded
model). -/
structure WhisperTranscriber where
  model_name : String
  model : WhisperModel
deriving DecidableEq, Repr

/-- Constructor `WhisperTranscriber.__init__` with `_load_model`
(`whisper_transcriber.py` lines 31-70): calls
`whisper.load_model(self.model_name, device="cpu")` — the device is
hard-coded to `"cpu"` — and wraps any exception into
`WhisperModelError`. -/
def WhisperTranscriber.init (env : WhisperEnv) (model_name : String) :
    Except PyExc WhisperTranscriber :=
  match whisper_load_model env model_name "cpu" with
  | .ok m => .ok ⟨model_name, m⟩
  | .error msg =>
      .error (.whisperModelError
        ("Failed to load model '" ++ model_name
          ++ "'. Is it installed? Is there enough VRAM? Error: " ++ msg))

/-- The fp16 flag computed at `whisper_transcriber.py` line 90:
`use_fp16 = self.model.device.type == 'cuda'`. -/
def WhisperTranscriber.fp16Flag (self : WhisperTranscriber) : Bool :=
  self.model.device_type == "cuda"

/-- Method `WhisperTranscriber.transcribe` (`whisper_transcriber.py` lines
72-112): computes the fp16 flag from the model's device, calls the model's
transcription routine on the resolved path with that flag, maps the raw
record into `TranscriptionResult` with the defaults of `dict.get`, and
wraps any exception of the call into `TranscriptionError`. -/
def WhisperTranscriber.transcribe (self : WhisperTranscriber)
    (env : WhisperEnv) (job : TranscriptionJob) :
    Except PyExc TranscriptionResult :=
  let use_fp16 := self.fp16Flag
  match env.transcribe_run (env.resolve job.audio_file_path) use_fp16 with
  | .ok d =>
      .ok { text := d.text.getD "", language := d.language.getD "unknown",
            segments := d.segments.getD [] }
  | .error msg => .error (.transcriptionError ("Transcription failed: " ++ msg))

/-- Use case `CreateTranscriptionUseCase.execute` (`use_case.py` lines
22-56), parametrised over the injected transcription port; also returns
the trace of port invocations.  The job is built with the model's field
defaults (source comment: "We are using defaults for language (auto-detect)
and fp16 (True)"). -/
def CreateTranscriptionUseCase.execute
    (transcriber : TranscriptionJob → Except PyExc TranscriptionResult)
    (fs : FileSystem) (audio_path : String) :
    Except PyExc TranscriptionResult × List TranscriptionJob :=
  if fs.existsAt audio_path = false then
    (.error (.audioFileNotFound ("Audio file not found at: " ++ audio_path)), [])
  else if fs.isFile audio_path = false then
    (.error (.audioFileNotFound ("Path is not a file: " ++ audio_path)), [])
  else
    let job : TranscriptionJob := { audio_file_path := audio_path }
    (transcriber job, [job])

/-- The `try` body of `transcribe_audio` (`transcription/service/api.py`
lines 59-84): construct the adapter with the configured model name, then
run the use case with it injected. -/
def transcribe_body (env : WhisperEnv) (audio_file_path : String) :
    Except PyExc TranscriptionResult × List TranscriptionJob :=
  match WhisperTranscriber.init env DEFAULT_WHISPER_MODEL with
  | .error e => (.error e, [])
  | .ok transcriber =>
      CreateTranscriptionUseCase.execute (fun j => transcriber.transcribe env j)
        env.fs audio_file_path

/-- Service function `transcribe_audio` (`transcription/service/api.py`
lines 38-100).  The `except` clauses, in source order: `WhisperModelError`
is re-raised, any other `TranscriptionError` returns `None`, and any other
`Exception` returns `None`. -/
def transcribe_audio (env : WhisperEnv) (audio_file_path : String) :
    Except PyExc (Option TranscriptionResult) × List TranscriptionJob :=
  match transcribe_body env audio_file_path with
  | (.ok r, calls) => (.ok (some r), calls)
  | (.error e, calls) =>
      if e.isWhisperModelError then (.error e, calls)
      else if e.isTranscriptionError then (.ok none, calls)
      else (.ok none, calls)

/-! ### Concrete environments used to instantiate the theorems -/

/-- File system on which every path exists and is a regular file. -/
def fsAll : FileSystem := ⟨fun _ => true, fun _ => true⟩

/-- File system on which no path exists. -/
def fsNone : FileSystem := ⟨fun _ => false, fun _ => false⟩

/-- Extraction environment where everything succeeds. -/
def envOK : ExtractEnv :=
  { which_ffmpeg := some "/usr/bin/ffmpeg",
    run := fun _ => .completed 0 "" "",
    resolve := id, fs := fsAll }

/-- Extraction environment where the PATH search finds no ffmpeg binary. -/
def envNoBin : ExtractEnv :=
  { which_ffmpeg := none,
    run := fun _ => .completed 0 "" "",
    resolve := id, fs := fsAll }

/-- Extraction environment where the subprocess exits with status 1 and
captured output. -/
def envExitFail : ExtractEnv :=
  { which_ffmpeg := some "/usr/bin/ffmpeg",
    run := fun _ => .completed 1 "out-AAA" "err-BBB",
    resolve := id, fs := fsAll }

/-- Extraction environment where the subprocess hits the 600 s timeout
after producing captured output. -/
def envTimeoutX : ExtractEnv :=
  { which_ffmpeg := some "/usr/bin/ffmpeg",
    run := fun _ => .timedOut "captured-out-XYZ" "captured-err-XYZ",
    resolve := id, fs := fsAll }

/-- An adapter instance holding a resolved binary path. -/
def selfT : FFmpegAudioExtractor := ⟨"/usr/bin/ffmpeg"⟩

/-- A concrete extraction job. -/
def jobX : AudioExtractionJob := ⟨"/m/clip.mp4", "/m/clip.mp3", ["-q:a", "0"]⟩

/-- Transcription environment where loading succeeds and the model returns
an empty record. -/
def envWhisperOK : WhisperEnv :=
  { load_error := fun _ => none,
    transcribe_run := fun _ _ => .ok {},
    resolve := id, fs := fsAll }

/-- Transcription environment where loading succeeds and the model call
raises. -/
def envWhisperRunFail : WhisperEnv :=
  { load_error := fun _ => none,
    transcribe_run := fun _ _ => .error "boom",
    resolve := id, fs := fsAll }

/-! ### Helper lemmas -/

/-- A string contains any middle factor of a three-way concatenation. -/
theorem strContains_append_mid (a x b : String) :
    strContains (a ++ x ++ b) x = true := by
  simp only [strContains, decide_eq_true_eq]
  exact ⟨a.toList, b.toList, by simp⟩

/-- A string contains its final factor. -/
theorem strContains_append_right (a x : String) :
    strContains (a ++ x) x = true := by
  simp only [strContains, decide_eq_true_eq]
  exact ⟨a.toList, [], by simp⟩

/-- On success, `ExtractAudioUseCase.execute` returns the `output_path` it
was given. -/
theorem extract_execute_ok
    (extractor : AudioExtractionJob → Except PyExc Unit × List String)
    (fs : FileSystem) (v out : String) (flags : List String)
    (p : String) (dirs : List String) (calls : List AudioExtractionJob)
    (h : ExtractAudioUseCase.execute extractor fs v out flags =
      (.ok p, dirs, calls)) : p = out := by
  unfold ExtractAudioUseCase.execute at h
  split at h
  · simp at h
  · split at h
    · simp at h
    · rcases hx : extractor ⟨v, out, flags⟩ with ⟨r, d⟩
      rcases r with e | u <;> simp [hx] at h
      exact h.1.symm

/-- On success, the returned path of `extract_body` is the output path the
truthiness test selected. -/
theorem extract_body_ok_path (env : ExtractEnv) (v : String)
    (o : Option String) (p : String) (dirs : List String)
    (calls : List AudioExtractionJob)
    (hb : extract_body env v o = (.ok p, dirs, calls)) :
    p = (if o.getD "" = "" then pyWithSuffix v ("." ++ DEFAULT_OUTPUT_FORMAT)
         else o.getD "") := by
  unfold extract_body at hb
  split at hb
  · simp at hb
  · rcases o with _ | s
    · simpa using extract_execute_ok _ _ _ _ _ _ _ _ hb
    · by_cases hs : s = ""
      · subst hs
        simpa using extract_execute_ok _ _ _ _ _ _ _ _ hb
      · simp only [hs] at hb ⊢
        simp only [Option.getD, if_neg hs]
        have := extract_execute_ok _ _ _ _ _ _ _ _ hb
        simpa [hs] using this

/-- On success, `extract_audio_from_video` returns the path selected by
the truthiness test on the explicit output argument. -/
theorem extract_service_ok_path (env : ExtractEnv) (v : String)
    (o : Option String) (p : String)
    (h : (extract_audio_from_video env v o).1 = .ok (some p)) :
    p = (if o.getD "" = "" then pyWithSuffix v ("." ++ DEFAULT_OUTPUT_FORMAT)
         else o.getD "") := by
  unfold extract_audio_from_video at h
  rcases hb : extract_body env v o with ⟨r, dirs, calls⟩
  rw [hb] at h
  rcases r with e | q
  · by_cases hc : e.isFFmpegBinaryNotFound = true
    · simp [hc] at h
    · by_cases hc2 : e.isAudioExtractionError = true <;> simp [hc, hc2] at h
  · simp at h
    subst h
    exact extract_body_ok_path _ _ _ _ _ _ hb

/-- Every error of `WhisperTranscriber.transcribe` is a
`TranscriptionError` wrapper (the adapter catches every exception of the
model call). -/
theorem transcribe_adapter_error_shape (self : WhisperTranscriber)
    (env : WhisperEnv) (job : TranscriptionJob) (e : PyExc)
    (h : self.transcribe env job = .error e) :
    ∃ m, e = .transcriptionError m := by
  unfold WhisperTranscriber.transcribe at h
  rcases hx : env.transcribe_run (env.resolve job.audio_file_path) self.fp16Flag
    with msg | d <;> simp [hx] at h
  exact ⟨_, h.symm⟩

/-- Every error of `WhisperTranscriber.init` is a `WhisperModelError`, and
it occurs exactly when loading the named model raises. -/
theorem whisper_init_error (env : WhisperEnv) (name : String) (e : PyExc)
    (h : WhisperTranscriber.init env name = .error e) :
    (env.load_error name).isSome = true ∧ ∃ m, e = .whisperModelError m := by
  unfold WhisperTranscriber.init whisper_load_model at h
  rcases hl : env.load_error name with _ | msg <;> rw [hl] at h <;> simp at h
  exact ⟨rfl, ⟨_, h.symm⟩⟩

/-- Every error escaping the `try` body of `transcribe_audio` is a model-load
failure, a validation failure, or a wrapped transcription failure; the
model-load failure is the only `WhisperModelError`. -/
theorem transcribe_body_error_shape (env : WhisperEnv) (a : String) (e : PyExc)
    (h : (transcribe_body env a).1 = .error e) :
    (∃ m, e = .whisperModelError m ∧
      (env.load_error DEFAULT_WHISPER_MODEL).isSome = true) ∨
    (∃ m, e = .audioFileNotFound m) ∨
    (∃ m, e = .transcriptionError m) := by
  unfold transcribe_body at h
  rcases hi : WhisperTranscriber.init env DEFAULT_WHISPER_MODEL with ei | tr <;>
    rw [hi] at h
  · simp at h
    subst h
    rcases whisper_init_error env _ _ hi with ⟨hl, ⟨m, hm⟩⟩
    exact .inl ⟨m, hm, hl⟩
  · unfold CreateTranscriptionUseCase.execute at h
    by_cases he : env.fs.existsAt a = false
    · simp [he] at h
      exact .inr (.inl ⟨_, h.symm⟩)
    · by_cases hf : env.fs.isFile a = false
      · simp [he, hf] at h
        exact .inr (.inl ⟨_, h.symm⟩)
      · simp [he, hf] at h
        exact .inr (.inr (transcribe_adapter_error_shape _ _ _ _ h))

/-- The result of `extract_audio_from_video` is the body's result filtered
through the service's `except` clauses: a `FFmpegBinaryNotFoundError` is
re-raised and every other exception becomes a `None` return. -/
theorem extract_service_eq (env : ExtractEnv) (v : String) (o : Option String) :
    (extract_audio_from_video env v o).1 =
      (match (extract_body env v o).1 with
       | .ok p => .ok (some p)
       | .error e => if e.isFFmpegBinaryNotFound then .error e else .ok none) := by
  unfold extract_audio_from_video
  rcases hb : extract_body env v o with ⟨r, d, c⟩
  rcases r with e | p
  · by_cases hc : e.isFFmpegBinaryNotFound = true
    · simp [hc]
    · by_cases hc2 : e.isAudioExtractionError = true <;> simp [hc, hc2]
  · simp

/-- The result of `transcribe_audio` is the body's result filtered through
the service's `except` clauses: a `WhisperModelError` is re-raised and
every other exception becomes a `None` return. -/
theorem transcribe_service_eq (env : WhisperEnv) (a : String) :
    (transcribe_audio env a).1 =
      (match (transcribe_body env a).1 with
       | .ok r => .ok (some r)
       | .error e => if e.isWhisperModelError then .error e else .ok none) := by
  unfold transcribe_audio
  rcases hb : transcribe_body env a with ⟨r, c⟩
  rcases r with e | p
  · by_cases hc : e.isWhisperModelError = true
    · simp [hc]
    · by_cases hc2 : e.isTranscriptionError = true <;> simp [hc, hc2]
  · simp

/-- A string contains any factor of its character list. -/
theorem strContains_of_toList (hay needle : String)
    (h : needle.toList <:+: hay.toList) : strContains hay needle = true := by
  simp only [strContains, decide_eq_true_eq]
  exact h

/-- The directory trace of one `extract` call is exactly the `mkdir` of
the job's output-path parent, whatever the subprocess does. -/
theorem extract_dirs (self : FFmpegAudioExtractor) (env : ExtractEnv)
    (job : AudioExtractionJob) :
    (self.extract env job).2 = [pyParent job.output_audio_path] := by
  unfold FFmpegAudioExtractor.extract
  rcases hx : env.run (ffmpegCommand self env.resolve job) with ⟨rc, o1, e1⟩ | ⟨o1, e1⟩ | _ <;>
    simp [hx, apply_ite]

/-- The directory trace of a use-case run with the concrete adapter
injected is the image of its port-invocation trace under the parent of
the job's output path. -/
theorem execute_mkdir_trace (env : ExtractEnv) (self : FFmpegAudioExtractor)
    (fs : FileSystem) (v out : String) (flags : List String) :
    (ExtractAudioUseCase.execute (fun j => self.extract env j) fs v out flags).2.1 =
      ((ExtractAudioUseCase.execute (fun j => self.extract env j) fs v out flags).2.2).map
        (fun j => pyParent j.output_audio_path) := by
  unfold ExtractAudioUseCase.execute
  by_cases he : fs.existsAt v = false
  · simp [he]
  · by_cases hf : fs.isFile v = false
    · simp [he, hf]
    · rcases hx : self.extract env ⟨v, out, flags⟩ with ⟨r, d⟩
      have hd : d = [pyParent out] := by
        have h2 := extract_dirs self env ⟨v, out, flags⟩
        rw [hx] at h2
        simpa using h2
      rcases r with e | u <;> simp [he, hf, hx, hd]

/-- The service function passes the body's traces through unchanged. -/
theorem extract_service_trace (env : ExtractEnv) (v : String) (o : Option String) :
    (extract_audio_from_video env v o).2 = (extract_body env v o).2 := by
  unfold extract_audio_from_video
  rcases hb : extract_body env v o with ⟨r, d, c⟩
  rcases r with e | p
  · by_cases hc : e.isFFmpegBinaryNotFound = true
    · simp [hc]
    · by_cases hc2 : e.isAudioExtractionError = true <;> simp [hc, hc2]
  · simp

/-- The directory trace of the `try` body is the image of its
port-invocation trace under the parent of the job's output path. -/
theorem extract_body_trace (env : ExtractEnv) (v : String) (o : Option String) :
    (extract_body env v o).2.1 =
      ((extract_body env v o).2.2).map (fun j => pyParent j.output_audio_path) := by
  unfold extract_body
  rcases hi : FFmpegAudioExtractor.init none env.which_ffmpeg with e | ex
  · simp
  · exact execute_mkdir_trace env ex env.fs v _ FFMPEG_AUDIO_QUALITY_FLAGS

/-! ### Claim theorems -/

/-- C1: for every call to the service functions `extract_audio_from_video`
and `transcribe_audio`, a critical setup error (`FFmpegBinaryNotFoundError`
from adapter construction, `WhisperModelError` from model loading)
propagates to the caller uncaught, and every other exception raised during
the call (validation failure, execution failure, transcription failure, or
any unexpected exception) results in the function returning `None`: an
error escapes the extraction service only if it is a
`FFmpegBinaryNotFoundError`, escapes the transcription service only if it
is a `WhisperModelError` arising from model loading, and every non-critical
error of the `try` body yields an `.ok none` return. -/
theorem service_two_tier_error_policy :
    (∀ (env : ExtractEnv) (v : String) (o : Option String) (e : PyExc),
      ((extract_audio_from_video env v o).1 = .error e →
        e.isFFmpegBinaryNotFound = true) ∧
      ((extract_body env v o).1 = .error e → e.isFFmpegBinaryNotFound = true →
        (extract_audio_from_video env v o).1 = .error e) ∧
      ((extract_body env v o).1 = .error e → e.isFFmpegBinaryNotFound = false →
        (extract_audio_from_video env v o).1 = .ok none)) ∧
    (∀ (env : WhisperEnv) (a : String) (e : PyExc),
      ((transcribe_audio env a).1 = .error e →
        e.isWhisperModelError = true ∧
        (env.load_error DEFAULT_WHISPER_MODEL).isSome = true) ∧
      ((transcribe_body env a).1 = .error e → e.isWhisperModelError = true →
        (transcribe_audio env a).1 = .error e) ∧
      ((transcribe_body env a).1 = .error e → e.isWhisperModelError = false →
        (transcribe_audio env a).1 = .ok none)) := by
  constructor
  · intro env v o e
    refine ⟨?_, ?_, ?_⟩
    · intro h
      rw [extract_service_eq] at h
      rcases hb : (extract_body env v o).1 with e' | p <;> rw [hb] at h
      · by_cases hc : e'.isFFmpegBinaryNotFound = true <;> simp [hc] at h
        exact h ▸ hc
      · simp at h
    · intro hb hc
      rw [extract_service_eq, hb]
      simp [hc]
    · intro hb hc
      rw [extract_service_eq, hb]
      simp [hc]
  · intro env a e
    refine ⟨?_, ?_, ?_⟩
    · intro h
      rw [transcribe_service_eq] at h
      rcases hb : (transcribe_body env a).1 with e' | r <;> rw [hb] at h
      · by_cases hc : e'.isWhisperModelError = true <;> simp [hc] at h
        subst h
        rcases transcribe_body_error_shape env a e' hb with ⟨m, hm, hl⟩ | ⟨m, hm⟩ | ⟨m, hm⟩
        · exact ⟨hc, hl⟩
        · rw [hm] at hc
          simp [PyExc.isWhisperModelError] at hc
        · rw [hm] at hc
          simp [PyExc.isWhisperModelError] at hc
      · simp at h
    · intro hb hc
      rw [transcribe_service_eq, hb]
      simp [hc]
    · intro hb hc
      rw [transcribe_service_eq, hb]
      simp [hc]

/-- Witness for C1: with no ffmpeg binary on the PATH the extraction
service re-raises the construction error, and with a failing model call
the transcription service returns `None`. -/
theorem service_two_tier_error_policy_witness :
    (extract_audio_from_video envNoBin "/m/clip.mp4" none).1 =
      .error (.ffmpegBinaryNotFound
        "ffmpeg binary not found in system's PATH. Please install ffmpeg.") ∧
    (transcribe_audio envWhisperRunFail "/a.mp3").1 = .ok none := by
  constructor
  · exact (service_two_tier_error_policy.1 envNoBin "/m/clip.mp4" none _).2.1 rfl rfl
  · exact (service_two_tier_error_policy.2 envWhisperRunFail "/a.mp3"
      (.transcriptionError "Transcription failed: boom")).2.2 rfl rfl

/-- C2: for every input path that does not exist or is not a regular file,
`ExtractAudioUseCase.execute` raises `VideoFileNotFoundError` and
`CreateTranscriptionUseCase.execute` raises `AudioFileNotFoundError`, in
both cases before the injected port is invoked: the returned invocation
trace is empty, so the adapter observes zero invocations (no job is built
and no adapter method is called). -/
theorem use_case_validation_precedes_port :
    (∀ (extractor : AudioExtractionJob → Except PyExc Unit × List String)
       (fs : FileSystem) (v out : String) (flags : List String),
       fs.existsAt v = false ∨ fs.isFile v = false →
       ∃ m, ExtractAudioUseCase.execute extractor fs v out flags =
         (.error (.videoFileNotFound m), [], [])) ∧
    (∀ (transcriber : TranscriptionJob → Except PyExc TranscriptionResult)
       (fs : FileSystem) (a : String),
       fs.existsAt a = false ∨ fs.isFile a = false →
       ∃ m, CreateTranscriptionUseCase.execute transcriber fs a =
         (.error (.audioFileNotFound m), [])) := by
  constructor
  · intro extractor fs v out flags h
    unfold ExtractAudioUseCase.execute
    by_cases he : fs.existsAt v = false
    · exact ⟨"Video file not found at: " ++ v, by simp [he]⟩
    · have hf : fs.isFile v = false := by
        rcases h with h | h
        · exact absurd h he
        · exact h
      exact ⟨"Path is not a file: " ++ v, by simp [he, hf]⟩
  · intro transcriber fs a h
    unfold CreateTranscriptionUseCase.execute
    by_cases he : fs.existsAt a = false
    · exact ⟨"Audio file not found at: " ++ a, by simp [he]⟩
    · have hf : fs.isFile a = false := by
        rcases h with h | h
        · exact absurd h he
        · exact h
      exact ⟨"Path is not a file: " ++ a, by simp [he, hf]⟩

/-- Witness for C2: on a file system with no files, both use cases fail
with their not-found error and an empty invocation trace. -/
theorem use_case_validation_precedes_port_witness :
    (∃ m, ExtractAudioUseCase.execute (fun _ => (.ok (), [])) fsNone
      "/v.mp4" "/v.mp3" [] = (.error (.videoFileNotFound m), [], [])) ∧
    (∃ m, CreateTranscriptionUseCase.execute (fun _ => .ok ⟨"", "unknown", []⟩)
      fsNone "/a.mp3" = (.error (.audioFileNotFound m), [])) :=
  ⟨use_case_validation_precedes_port.1 _ fsNone "/v.mp4" "/v.mp3" [] (Or.inl rfl),
   use_case_validation_precedes_port.2 _ fsNone "/a.mp3" (Or.inl rfl)⟩

/-- C3: for every successful call, `ExtractAudioUseCase.execute` returns
exactly the `output_path` argument it was given (not a value derived from
the adapter), and `extract_audio_from_video` with no explicit output path
returns the input video path with its extension replaced by the configured
default format ("mp3"), while with an explicit (truthy) output path it
returns that path. -/
theorem extract_output_path_contract :
    (∀ (extractor : AudioExtractionJob → Except PyExc Unit × List String)
       (fs : FileSystem) (v out : String) (flags : List String)
       (p : String) (dirs : List String) (calls : List AudioExtractionJob),
       ExtractAudioUseCase.execute extractor fs v out flags =
         (.ok p, dirs, calls) → p = out) ∧
    (∀ (env : ExtractEnv) (v p : String),
       (extract_audio_from_video env v none).1 = .ok (some p) →
       p = pyWithSuffix v ("." ++ DEFAULT_OUTPUT_FORMAT)) ∧
    (∀ (env : ExtractEnv) (v s p : String), s ≠ "" →
       (extract_audio_from_video env v (some s)).1 = .ok (some p) → p = s) ∧
    DEFAULT_OUTPUT_FORMAT = "mp3" := by
  refine ⟨extract_execute_ok, ?_, ?_, rfl⟩
  · intro env v p h
    simpa using extract_service_ok_path env v none p h
  · intro env v s p hs h
    simpa [hs] using extract_service_ok_path env v (some s) p h

/-- Witness for C3: in the all-success environment the default-path call
returns the input path with suffix ".mp3", the explicit-path call returns
the explicit path, and the use case echoes its output argument. -/
theorem extract_output_path_contract_witness :
    "/m/clip.mp3" = pyWithSuffix "/m/clip.mp4" ("." ++ DEFAULT_OUTPUT_FORMAT) ∧
    "/out/x.mp3" = "/out/x.mp3" ∧ "/m/clip.mp3" = "/m/clip.mp3" := by
  refine ⟨?_, ?_, ?_⟩
  · exact extract_output_path_contract.2.1 envOK "/m/clip.mp4" "/m/clip.mp3" rfl
  · exact extract_output_path_contract.2.2.1 envOK "/m/clip.mp4" "/out/x.mp3"
      "/out/x.mp3" (by decide) rfl
  · exact extract_output_path_contract.1 (fun _ => (.ok (), [])) fsAll
      "/m/clip.mp4" "/m/clip.mp3" [] "/m/clip.mp3" []
      [⟨"/m/clip.mp4", "/m/clip.mp3", []⟩] rfl

/-- C4: for every extraction job, the argument list passed to the external
tool has exactly the shape: tool binary, "-i", resolved input path, "-vn",
the job's quality flags verbatim and in order, resolved output path, "-y"
— with the overwrite flag always present as the final argument. -/
theorem ffmpeg_command_shape (self : FFmpegAudioExtractor)
    (resolve : String → String) (job : AudioExtractionJob) :
    ffmpegCommand self resolve job =
      [self.ffmpeg_binary, "-i", resolve job.video_file_path, "-vn"]
        ++ job.audio_quality_flags
        ++ [resolve job.output_audio_path, "-y"] ∧
    (ffmpegCommand self resolve job).getLast? = some "-y" := by
  refine ⟨rfl, ?_⟩
  have h : ffmpegCommand self resolve job =
      (([self.ffmpeg_binary, "-i", resolve job.video_file_path, "-vn"]
        ++ job.audio_quality_flags) ++ [resolve job.output_audio_path])
        ++ ["-y"] := by
    simp [ffmpegCommand]
  rw [h, List.getLast?_concat]

/-- C5 counterexample: when the ffmpeg subprocess times out after having
produced captured output, `extract` raises `FFmpegExecutionError` whose
message is a fixed timeout text that does not carry the captured stderr or
stdout — refuting the claim that a timeout error's message carries both. -/
theorem timeout_message_omits_captured_output :
    (selfT.extract envTimeoutX jobX).1 =
      .error (.ffmpegExecutionError
        "FFmpeg command timed out after 600 seconds.") ∧
    strContains "FFmpeg command timed out after 600 seconds."
      "captured-err-XYZ" = false ∧
    strContains "FFmpeg command timed out after 600 seconds."
      "captured-out-XYZ" = false := by
  refine ⟨rfl, ?_, ?_⟩ <;> decide

/-- C5 amended: for every invocation of `FFmpegAudioExtractor.extract`, a
non-zero exit status is translated into `FFmpegExecutionError` whose
message carries the captured standard-output and standard-error text; the
600-second wall-clock timeout is translated into `FFmpegExecutionError`
whose message reports the timeout duration (but not the captured output);
a missing-binary error (`FileNotFoundError`) surfaced at call time is
translated into `FFmpegBinaryNotFoundError`; and no other outcome of the
subprocess call raises (exit status 0 succeeds). -/
theorem extract_error_translation (self : FFmpegAudioExtractor)
    (env : ExtractEnv) (job : AudioExtractionJob) (rc : Int)
    (out err : String) :
    (env.run (ffmpegCommand self env.resolve job) = .completed rc out err →
      rc ≠ 0 →
      ∃ m, (self.extract env job).1 = .error (.ffmpegExecutionError m) ∧
        strContains m out = true ∧ strContains m err = true) ∧
    (env.run (ffmpegCommand self env.resolve job) = .timedOut out err →
      (self.extract env job).1 = .error (.ffmpegExecutionError
        ("FFmpeg command timed out after " ++ toString FFMPEG_TIMEOUT
          ++ " seconds."))) ∧
    (env.run (ffmpegCommand self env.resolve job) = .binaryMissing →
      (self.extract env job).1 = .error (.ffmpegBinaryNotFound
        ("FFmpeg binary not found at " ++ self.ffmpeg_binary ++ "."))) ∧
    (env.run (ffmpegCommand self env.resolve job) = .completed 0 out err →
      (self.extract env job).1 = .ok ()) := by
  refine ⟨?_, ?_, ?_, ?_⟩
  · intro hr hrc
    refine ⟨"FFmpeg failed with exit code " ++ toString rc ++ ".\nSTDERR: "
      ++ err ++ "\nSTDOUT: " ++ out, ?_, ?_, ?_⟩
    · unfold FFmpegAudioExtractor.extract
      simp [hr, hrc]
    · exact strContains_append_right _ out
    · apply strContains_of_toList
      refine ⟨("FFmpeg failed with exit code " ++ toString rc
        ++ ".\nSTDERR: ").toList, ("\nSTDOUT: " ++ out).toList, ?_⟩
      simp
  · intro hr
    unfold FFmpegAudioExtractor.extract
    simp [hr]
  · intro hr
    unfold FFmpegAudioExtractor.extract
    simp [hr]
  · intro hr
    unfold FFmpegAudioExtractor.extract
    simp [hr]

/-- Witness for C5 amended: with exit status 1 the raised error's message
carries the captured output, and with exit status 0 the call succeeds. -/
theorem extract_error_translation_witness :
    (∃ m, (selfT.extract envExitFail jobX).1 =
        .error (.ffmpegExecutionError m) ∧
      strContains m "out-AAA" = true ∧ strContains m "err-BBB" = true) ∧
    (selfT.extract envOK jobX).1 = .ok () :=
  ⟨(extract_error_translation selfT envExitFail jobX 1 "out-AAA" "err-BBB").1
      rfl (by decide),
   (extract_error_translation selfT envOK jobX 0 "" "").2.2.2 rfl⟩

/-- C6: if the external tool binary cannot be resolved, adapter
construction raises `FFmpegBinaryNotFoundError` before any file-system
side effect occurs: a service call that fails construction creates no
directory at all, and in general every directory creation of a service
call is the `mkdir` of the output path's parent performed inside `extract`
for a job the adapter actually received — so `extract` is never reached
when construction fails. -/
theorem construction_failure_no_side_effect :
    (∀ (env : ExtractEnv) (v : String) (o : Option String),
      env.which_ffmpeg = none →
      extract_audio_from_video env v o =
        (.error (.ffmpegBinaryNotFound
          "ffmpeg binary not found in system's PATH. Please install ffmpeg."),
          [], [])) ∧
    (∀ (env : ExtractEnv) (v : String) (o : Option String),
      (extract_audio_from_video env v o).2.1 =
        ((extract_audio_from_video env v o).2.2).map
          (fun j => pyParent j.output_audio_path)) := by
  constructor
  · intro env v o hw
    simp [extract_audio_from_video, extract_body, FFmpegAudioExtractor.init,
      hw, PyExc.isFFmpegBinaryNotFound]
  · intro env v o
    have ht := extract_service_trace env v o
    have h1 : (extract_audio_from_video env v o).2.1 = (extract_body env v o).2.1 := by
      rw [ht]
    have h2 : (extract_audio_from_video env v o).2.2 = (extract_body env v o).2.2 := by
      rw [ht]
    rw [h1, h2]
    exact extract_body_trace env v o

/-- Witness for C6: with no ffmpeg binary on the PATH, the service call
fails with the construction error and creates no directory. -/
theorem construction_failure_no_side_effect_witness :
    extract_audio_from_video envNoBin "/m/clip.mp4" (some "/out/x.mp3") =
      (.error (.ffmpegBinaryNotFound
        "ffmpeg binary not found in system's PATH. Please install ffmpeg."),
        [], []) :=
  construction_failure_no_side_effect.1 envNoBin "/m/clip.mp4"
    (some "/out/x.mp3") rfl

/-- C7: for every pair of transcription jobs that differ only in the job's
`use_fp16` field, `WhisperTranscriber.transcribe` passes the same fp16
flag to the model's transcription routine — the call's outcome is
invariant in the job's precision preference for every environment,
including environments whose model call distinguishes the flag — and the
flag is determined solely by the loaded model's compute device: true
exactly when the device type is "cuda". -/
theorem fp16_independent_of_job (self : WhisperTranscriber)
    (env : WhisperEnv) (path : String) (lang : Option String) (b1 b2 : Bool) :
    self.transcribe env ⟨path, lang, b1⟩ = self.transcribe env ⟨path, lang, b2⟩ ∧
    self.fp16Flag = (self.model.device_type == "cuda") :=
  ⟨rfl, rfl⟩

/-- C8: for every record returned by the model's transcription routine,
`WhisperTranscriber.transcribe` maps it into a `TranscriptionResult` whose
text field equals the record's text field or the empty string when that
field is missing, whose language field equals the record's language field
or "unknown" when missing, and whose segments field equals the record's
segments field or the empty list when missing. -/
theorem whisper_result_mapping (self : WhisperTranscriber)
    (env : WhisperEnv) (job : TranscriptionJob) (d : WhisperRaw)
    (h : env.transcribe_run (env.resolve job.audio_file_path) self.fp16Flag =
      .ok d) :
    self.transcribe env job =
      .ok { text := d.text.getD "", language := d.language.getD "unknown",
            segments := d.segments.getD [] } := by
  unfold WhisperTranscriber.transcribe
  simp [h]

/-- Witness for C8: a model record with all three fields missing maps to
the empty text, "unknown" language and no segments. -/
theorem whisper_result_mapping_witness :
    WhisperTranscriber.transcribe ⟨"medium", ⟨"cpu"⟩⟩ envWhisperOK
      ⟨"/a.mp3", none, true⟩ = .ok ⟨"", "unknown", []⟩ :=
  whisper_result_mapping ⟨"medium", ⟨"cpu"⟩⟩ envWhisperOK
    ⟨"/a.mp3", none, true⟩ {} rfl

/-- C9: for every transcriber built by the constructor, the fp16 flag
passed to the model's transcription routine is false, because the
constructor always loads the model with the device hard-coded to "cpu",
so the device-type test for "cuda" can never succeed — the job's
`use_fp16` default of true is never honored by this adapter. -/
theorem cpu_device_forces_fp16_false (env : WhisperEnv) (name : String)
    (self : WhisperTranscriber)
    (h : WhisperTranscriber.init env name = .ok self) :
    self.model.device_type = "cpu" ∧ self.fp16Flag = false := by
  unfold WhisperTranscriber.init whisper_load_model at h
  rcases hl : env.load_error name with _ | msg <;> rw [hl] at h <;> simp at h
  subst h
  exact ⟨rfl, rfl⟩

/-- Witness for C9: with a load that succeeds, the constructed transcriber
sits on the CPU device and its fp16 flag is false. -/
theorem cpu_device_forces_fp16_false_witness :
    (⟨"medium", ⟨"cpu"⟩⟩ : WhisperTranscriber).model.device_type = "cpu" ∧
    (⟨"medium", ⟨"cpu"⟩⟩ : WhisperTranscriber).fp16Flag = false :=
  cpu_device_forces_fp16_false envWhisperOK "medium" ⟨"medium", ⟨"cpu"⟩⟩ rfl

/-- C10: for every falsy explicit output path argument (`None` or the
empty string), `extract_audio_from_video` behaves as if no output path
were supplied: the truthiness test on the argument selects the
default-path branch — the call with the empty string is indistinguishable
from the call with no argument — so on success the function returns the
input path with its extension replaced by the default format rather than
the supplied empty path. -/
theorem falsy_output_path_defaults :
    (∀ (env : ExtractEnv) (v : String),
      extract_audio_from_video env v (some "") =
        extract_audio_from_video env v none) ∧
    (∀ (env : ExtractEnv) (v p : String),
      (extract_audio_from_video env v (some "")).1 = .ok (some p) →
      p = pyWithSuffix v ("." ++ DEFAULT_OUTPUT_FORMAT)) := by
  constructor
  · intro env v
    rfl
  · intro env v p h
    simpa using extract_service_ok_path env v (some "") p h

/-- Witness for C10: in the all-success environment the empty-string call
coincides with the no-argument call and returns the default ".mp3" path. -/
theorem falsy_output_path_defaults_witness :
    extract_audio_from_video envOK "/m/clip.mp4" (some "") =
      extract_audio_from_video envOK "/m/clip.mp4" none ∧
    "/m/clip.mp3" = pyWithSuffix "/m/clip.mp4" ("." ++ DEFAULT_OUTPUT_FORMAT) :=
  ⟨falsy_output_path_defaults.1 envOK "/m/clip.mp4",
   falsy_output_path_defaults.2 envOK "/m/clip.mp4" "/m/clip.mp3" rfl⟩
